import Mathlib

/-!
Shallow embedding of the Cartpanda funnel-builder core: the node/edge graph
store, connection rule, label generator, import handling and validation
engine, translated from the FunnelBuilder component
(docs/dashboard-architecture.md), ValidationPanel.tsx and types/nodes.ts.
-/

namespace FunnelBuilder

/-- The closed set of five node types (types/nodes.ts, `NodeType`). -/
inductive NodeType
  | salesPage
  | orderPage
  | upsell
  | downsell
  | thankYou
deriving DecidableEq, Repr

/-- The TypeScript string literal naming each node type, used in node ids. -/
def nodeTypeName : NodeType → String
  | .salesPage => "salesPage"
  | .orderPage => "orderPage"
  | .upsell => "upsell"
  | .downsell => "downsell"
  | .thankYou => "thankYou"

/-- Static template per node type (types/nodes.ts, `NodeTemplate`). -/
structure NodeTemplate where
  type : NodeType
  label : String
  buttonLabel : String
  icon : String
  color : String
  description : String
deriving DecidableEq, Repr

/-- The five immutable templates (types/nodes.ts, `NODE_TEMPLATES`). -/
def NODE_TEMPLATES : NodeType → NodeTemplate
  | .salesPage =>
    { type := .salesPage, label := "Sales Page", buttonLabel := "Buy Now",
      icon := "📄", color := "#3b82f6",
      description := "Landing page to sell your product" }
  | .orderPage =>
    { type := .orderPage, label := "Order Page", buttonLabel := "Complete Order",
      icon := "🛒", color := "#10b981",
      description := "Checkout page for customer details" }
  | .upsell =>
    { type := .upsell, label := "Upsell", buttonLabel := "Yes, Add This!",
      icon := "⬆️", color := "#f59e0b",
      description := "Offer additional products" }
  | .downsell =>
    { type := .downsell, label := "Downsell", buttonLabel := "Get This Instead",
      icon := "⬇️", color := "#ef4444",
      description := "Alternative offer if upsell declined" }
  | .thankYou =>
    { type := .thankYou, label := "Thank You", buttonLabel := "Continue",
      icon := "✅", color := "#8b5cf6",
      description := "Order confirmation page" }

/-- Semantic node payload (types/nodes.ts, `FunnelNodeData`); the index
signature carries only rendering metadata the core never inspects. -/
structure FunnelNodeData where
  label : String
  type : NodeType
  buttonLabel : String
  icon : String
deriving DecidableEq, Repr

/-- Canvas position, owned by the rendering collaborator and opaque to the
core; modelled with integer coordinates since the core never inspects it. -/
structure XYPosition where
  x : Int
  y : Int
deriving DecidableEq, Repr

/-- A graph node as the store keeps it (id, position, payload). -/
structure Node where
  id : String
  position : XYPosition
  data : FunnelNodeData
deriving DecidableEq, Repr

/-- A directed edge (id, source node id, target node id); the rendering
attributes (smoothstep, animated, marker) are presentation only. -/
structure Edge where
  id : String
  source : String
  target : String
deriving DecidableEq, Repr

/-- A proposed connection as React Flow hands it to `onConnect`. -/
structure Connection where
  source : String
  target : String
deriving DecidableEq, Repr

/-- Per-type auto-increment counters for the repeatable types
(`getNodeCounters` initialises both to 0). -/
structure Counters where
  upsell : Nat
  downsell : Nat
deriving DecidableEq, Repr

/-- The state of the editing session: node list, edge list, counters. -/
structure EditorState where
  nodes : List Node
  edges : List Edge
  counters : Counters
deriving DecidableEq, Repr

/-- Initial state: empty graph, both counters 0. -/
def initialState : EditorState :=
  { nodes := [], edges := [], counters := { upsell := 0, downsell := 0 } }

/-- Edge id generated by the xyflow `addEdge` helper for a connection with
null handles. -/
def getEdgeId (source target : String) : String :=
  "xy-edge__" ++ source ++ "-" ++ target

/-- The xyflow `addEdge` duplicate check: an edge with this source and
target already exists. -/
def connectionExists (source target : String) (edges : List Edge) : Bool :=
  edges.any (fun e => e.source == source && e.target == target)

/-- The xyflow `addEdge` helper: ignores empty endpoints and duplicates,
otherwise appends a new edge with a derived id. -/
def addEdge (c : Connection) (edges : List Edge) : List Edge :=
  if c.source = "" ∨ c.target = "" then edges
  else if connectionExists c.source c.target edges then edges
  else edges ++ [{ id := getEdgeId c.source c.target,
                   source := c.source, target := c.target }]

/-- The `onConnect` callback: looks up the source node, rejects when its
type is `thankYou` (alert text returned as the rejection reason, no state
change), otherwise commits `addEdge`. -/
def onConnect (s : EditorState) (c : Connection) : EditorState × Option String :=
  match s.nodes.find? (fun n => n.id == c.source) with
  | some n =>
    if n.data.type = .thankYou then
      (s, some "Thank You pages cannot have outgoing connections")
    else
      ({ s with edges := addEdge c s.edges }, none)
  | none => ({ s with edges := addEdge c s.edges }, none)

/-- The committed mutation of the `onDrop` callback (after its input
guards): label generation with counter bump for `upsell`/`downsell`, node
creation with id `type-Date.now()`, append to the node list. `now` is the
`Date.now()` value observed by the call. -/
def onDrop (s : EditorState) (type : NodeType) (position : XYPosition)
    (now : Nat) : EditorState :=
  let template := NODE_TEMPLATES type
  let (label, counters) :=
    match type with
    | .upsell =>
      (template.label ++ " " ++ toString (s.counters.upsell + 1),
       { s.counters with upsell := s.counters.upsell + 1 })
    | .downsell =>
      (template.label ++ " " ++ toString (s.counters.downsell + 1),
       { s.counters with downsell := s.counters.downsell + 1 })
    | _ => (template.label, s.counters)
  let newNode : Node :=
    { id := nodeTypeName type ++ "-" ++ toString now,
      position := position,
      data := { label := label, type := type,
                buttonLabel := template.buttonLabel, icon := template.icon } }
  { s with nodes := s.nodes ++ [newNode], counters := counters }

/-- The `onNodesDelete` callback: drops every edge whose source or target
is one of the deleted ids. -/
def onNodesDelete (deletedIds : List String) (edges : List Edge) : List Edge :=
  edges.filter (fun e => !deletedIds.contains e.source && !deletedIds.contains e.target)

/-- Deletion of a node set: React Flow removes the listed nodes and the
`onNodesDelete` callback removes, in the same committed mutation, every
edge touching them. -/
def deleteNodes (s : EditorState) (ids : List String) : EditorState :=
  { s with nodes := s.nodes.filter (fun n => !ids.contains n.id),
           edges := onNodesDelete ids s.edges }

/-- Removal of a single edge by id (React Flow remove change applied by
`onEdgesChange`). -/
def removeEdge (s : EditorState) (id : String) : EditorState :=
  { s with edges := s.edges.filter (fun e => !(e.id == id)) }

/-- A parsed import document. A field is `some l` exactly when the key is
present with an array value (the `data.nodes && Array.isArray(data.nodes)`
test in `handleImport`), `none` when absent or not an array. -/
structure ImportDoc where
  nodes : Option (List Node)
  edges : Option (List Edge)
deriving DecidableEq, Repr

/-- The `handleImport` callback after file read: `none` models a JSON
parse failure (caught, state untouched); on a parsed document each key is
applied independently when present as an array. -/
def handleImport (s : EditorState) (doc : Option ImportDoc) : EditorState :=
  match doc with
  | none => s
  | some d =>
    let s := match d.nodes with
      | some ns => { s with nodes := ns }
      | none => s
    match d.edges with
    | some es => { s with edges := es }
    | none => s

/-- Issue severity (ValidationPanel.tsx, the `type` field of an issue). -/
inductive IssueType
  | error
  | warning
deriving DecidableEq, Repr

/-- A validation finding (ValidationPanel.tsx, `ValidationIssue`). -/
structure ValidationIssue where
  type : IssueType
  message : String
  nodeId : Option String
deriving DecidableEq, Repr

/-- Some edge targets this node id (`edges.some((e) => e.target === node.id)`). -/
def hasIncoming (edges : List Edge) (id : String) : Bool :=
  edges.any (fun e => e.target == id)

/-- Some edge leaves this node id (`edges.some((e) => e.source === node.id)`). -/
def hasOutgoing (edges : List Edge) (id : String) : Bool :=
  edges.any (fun e => e.source == id)

/-- Wraps a label in double quotes as the template literals in
ValidationPanel.tsx do. -/
def quoted (label : String) : String :=
  "\"" ++ label ++ "\""

/-- One iteration of the per-node `forEach` in ValidationPanel.tsx: the
three independent `if` blocks, each pushing onto the accumulated list. -/
def perNodeCheck (edges : List Edge) (acc : List ValidationIssue)
    (node : Node) : List ValidationIssue :=
  let hasIn := hasIncoming edges node.id
  let hasOut := hasOutgoing edges node.id
  let t := node.data.type
  let acc :=
    if t = .salesPage ∧ hasOut = false then
      acc ++ [{ type := .warning,
                message := quoted node.data.label ++ " has no outgoing connection",
                nodeId := some node.id }]
    else acc
  let acc :=
    if t = .thankYou ∧ hasIn = false then
      acc ++ [{ type := .warning,
                message := quoted node.data.label ++ " has no incoming connection",
                nodeId := some node.id }]
    else acc
  if t ≠ .salesPage ∧ t ≠ .thankYou then
    if hasIn = false ∧ hasOut = false then
      acc ++ [{ type := .error,
                message := quoted node.data.label ++ " is orphaned (no connections)",
                nodeId := some node.id }]
    else if hasIn = false then
      acc ++ [{ type := .warning,
                message := quoted node.data.label ++ " has no incoming connection",
                nodeId := some node.id }]
    else if hasOut = false then
      acc ++ [{ type := .warning,
                message := quoted node.data.label ++ " has no outgoing connection",
                nodeId := some node.id }]
    else acc
  else acc

/-- One iteration of the sales-page fan-out `forEach`: push a warning when
the node has more than one outgoing edge. -/
def fanOutCheck (edges : List Edge) (acc : List ValidationIssue)
    (sp : Node) : List ValidationIssue :=
  let outgoing := edges.filter (fun e => e.source == sp.id)
  if outgoing.length > 1 then
    acc ++ [{ type := .warning,
              message := quoted sp.data.label ++
                " has multiple outgoing connections (typically should have one)",
              nodeId := some sp.id }]
  else acc

/-- The validation engine: the `useMemo` body of ValidationPanel.tsx — the
per-node pass over all nodes followed by the fan-out pass over the
`salesPage` nodes, pushing into one `problems` list. -/
def validate (nodes : List Node) (edges : List Edge) : List ValidationIssue :=
  let problems := nodes.foldl (perNodeCheck edges) []
  let salesPages := nodes.filter (fun n => n.data.type == NodeType.salesPage)
  salesPages.foldl (fanOutCheck edges) problems

/-- Issues the per-node rules emit for one node, written as the block of
issues the node contributes (specification shape, for the ordering
refinement). -/
def perNodeIssues (edges : List Edge) (node : Node) : List ValidationIssue :=
  let hasIn := hasIncoming edges node.id
  let hasOut := hasOutgoing edges node.id
  let t := node.data.type
  (if t = .salesPage ∧ hasOut = false then
    [{ type := .warning,
       message := quoted node.data.label ++ " has no outgoing connection",
       nodeId := some node.id }]
   else []) ++
  (if t = .thankYou ∧ hasIn = false then
    [{ type := .warning,
       message := quoted node.data.label ++ " has no incoming connection",
       nodeId := some node.id }]
   else []) ++
  (if t ≠ .salesPage ∧ t ≠ .thankYou then
    if hasIn = false ∧ hasOut = false then
      [{ type := .error,
         message := quoted node.data.label ++ " is orphaned (no connections)",
         nodeId := some node.id }]
    else if hasIn = false then
      [{ type := .warning,
         message := quoted node.data.label ++ " has no incoming connection",
         nodeId := some node.id }]
    else if hasOut = false then
      [{ type := .warning,
         message := quoted node.data.label ++ " has no outgoing connection",
         nodeId := some node.id }]
    else []
   else [])

/-- The fan-out warning a `salesPage` node contributes, when it has more
than one outgoing edge (specification shape). -/
def fanOutIssue (edges : List Edge) (sp : Node) : Option ValidationIssue :=
  if (edges.filter (fun e => e.source == sp.id)).length > 1 then
    some { type := .warning,
           message := quoted sp.data.label ++
             " has multiple outgoing connections (typically should have one)",
           nodeId := some sp.id }
  else none

/-- The global fan-out warnings in node-insertion order (specification shape). -/
def globalIssues (nodes : List Node) (edges : List Edge) : List ValidationIssue :=
  (nodes.filter (fun n => n.data.type == NodeType.salesPage)).filterMap (fanOutIssue edges)

/-- The label the Label Generator contract of the specification assigns:
template label plus a space and the new count for the repeatable types,
the template label unchanged otherwise. -/
def specNextLabel (counters : Counters) : NodeType → String
  | .upsell => (NODE_TEMPLATES .upsell).label ++ " " ++ toString (counters.upsell + 1)
  | .downsell => (NODE_TEMPLATES .downsell).label ++ " " ++ toString (counters.downsell + 1)
  | t => (NODE_TEMPLATES t).label

/-- The counter update the Label Generator contract of the specification
performs: bump the type's counter for the repeatable types, touch nothing
otherwise. -/
def specNextCounters (counters : Counters) : NodeType → Counters
  | .upsell => { counters with upsell := counters.upsell + 1 }
  | .downsell => { counters with downsell := counters.downsell + 1 }
  | _ => counters

/-- A graph mutation event emitted by the rendering collaborator. -/
inductive Op
  | add (type : NodeType) (position : XYPosition) (now : Nat)
  | delete (ids : List String)
  | remEdge (id : String)
  | connect (c : Connection)
deriving DecidableEq, Repr

/-- Applies one mutation event to the editor state. -/
def applyOp (s : EditorState) : Op → EditorState
  | .add t p now => onDrop s t p now
  | .delete ids => deleteNodes s ids
  | .remEdge id => removeEdge s id
  | .connect c => (onConnect s c).1

/-- Runs a sequence of mutation events from a state. -/
def run (s : EditorState) (ops : List Op) : EditorState :=
  ops.foldl applyOp s

/-- The numeric suffixes of the upsell labels generated along a run, in
order of generation (each upsell add labels its node with the bumped
counter value). -/
def upsellLabelNums (s : EditorState) : List Op → List Nat
  | [] => []
  | op :: ops =>
    match op with
    | .add .upsell _ _ => (s.counters.upsell + 1) :: upsellLabelNums (applyOp s op) ops
    | _ => upsellLabelNums (applyOp s op) ops

/-- Every edge endpoint references an existing node id. -/
def noDangling (s : EditorState) : Bool :=
  s.edges.all (fun e =>
    s.nodes.any (fun n => n.id == e.source) &&
    s.nodes.any (fun n => n.id == e.target))

/-- The rendering collaborator contract on a mutation event: a connect
references existing node ids; every other event is unconstrained. -/
def connectOk (s : EditorState) : Op → Bool
  | .connect c =>
    s.nodes.any (fun n => n.id == c.source) && s.nodes.any (fun n => n.id == c.target)
  | _ => true

/-- Validation as a function of the whole editor state: the panel reads
only the node and edge lists. -/
def validateOfState (s : EditorState) : List ValidationIssue :=
  validate s.nodes s.edges

/-- Convenience constructor for concrete graphs: a node with the template
button label and icon of its type. -/
def mkNode (id : String) (t : NodeType) (label : String) : Node :=
  { id := id, position := { x := 0, y := 0 },
    data := { label := label, type := t,
              buttonLabel := (NODE_TEMPLATES t).buttonLabel,
              icon := (NODE_TEMPLATES t).icon } }

/-- A concrete sales-page node. -/
def salesNode : Node := mkNode "s1" .salesPage "Sales Page"

/-- A concrete order-page node. -/
def orderNode : Node := mkNode "o1" .orderPage "Order Page"

/-- A concrete thank-you node. -/
def thankYouNode : Node := mkNode "t1" .thankYou "Thank You"

/-- A state holding a single thank-you node. -/
def thankYouState : EditorState :=
  { nodes := [thankYouNode], edges := [], counters := { upsell := 0, downsell := 0 } }

/-- A state holding a single sales-page node. -/
def salesOnlyState : EditorState :=
  { nodes := [salesNode], edges := [], counters := { upsell := 0, downsell := 0 } }

/-- A state holding a sales page and an order page, not yet connected. -/
def salesOrderState : EditorState :=
  { nodes := [salesNode, orderNode], edges := [], counters := { upsell := 0, downsell := 0 } }

/-- A state holding a sales page connected to an order page. -/
def oneEdgeState : EditorState :=
  { nodes := [salesNode, orderNode],
    edges := [{ id := "e1", source := "s1", target := "o1" }],
    counters := { upsell := 0, downsell := 0 } }

/-- The same graph as `salesOnlyState` with different counters. -/
def salesOnlyStateBumped : EditorState :=
  { nodes := [salesNode], edges := [], counters := { upsell := 3, downsell := 4 } }

/-! Theorems. -/

/-- C1: deleting a node set removes, in the same committed mutation, every
edge whose source or target is a deleted id — afterwards zero edges
reference any deleted id — while the listed nodes are removed. -/
theorem deleteNodes_cascade (s : EditorState) (ids : List String) :
    (deleteNodes s ids).edges.countP
        (fun e => ids.contains e.source || ids.contains e.target) = 0 ∧
    (deleteNodes s ids).nodes = s.nodes.filter (fun n => !ids.contains n.id) := by
  refine ⟨?_, rfl⟩
  rw [List.countP_eq_zero]
  intro e he
  simp [deleteNodes, onNodesDelete] at he
  simp [he.2.1, he.2.2]

/-- C2: a connection whose source node has type `thankYou` is rejected with
a structured reason and the editor state — nodes, edges, counters — is
returned unchanged. -/
theorem onConnect_rejects_thankYou (s : EditorState) (c : Connection) (n : Node)
    (hfind : s.nodes.find? (fun m => m.id == c.source) = some n)
    (hty : n.data.type = .thankYou) :
    onConnect s c = (s, some "Thank You pages cannot have outgoing connections") := by
  simp [onConnect, hfind, hty]

/-- Witness for C2: connecting out of a concrete thank-you node is rejected
and leaves the concrete state unchanged. -/
theorem onConnect_rejects_thankYou_witness :
    onConnect thankYouState { source := "t1", target := "s1" } =
      (thankYouState, some "Thank You pages cannot have outgoing connections") :=
  onConnect_rejects_thankYou thankYouState { source := "t1", target := "s1" }
    thankYouNode (by decide) rfl

/-- C9: every `onDrop` labels the new node with the specification's Label
Generator output — template label plus the bumped count for `upsell` and
`downsell`, the bare template label otherwise — and updates the counters
exactly as the specification's counter update does. -/
theorem onDrop_label_and_counters (s : EditorState) (t : NodeType)
    (p : XYPosition) (now : Nat) :
    (onDrop s t p now).nodes.map (fun n => n.data.label) =
      s.nodes.map (fun n => n.data.label) ++ [specNextLabel s.counters t] ∧
    (onDrop s t p now).counters = specNextCounters s.counters t := by
  cases t <;> simp [onDrop, specNextLabel, specNextCounters]

/-- C10: validation is a pure function of the node and edge lists alone —
two states agreeing on nodes and edges (counters or any other component
arbitrary) yield identical issue sequences. -/
theorem validate_depends_only_on_graph (s1 s2 : EditorState)
    (hn : s1.nodes = s2.nodes) (he : s1.edges = s2.edges) :
    validateOfState s1 = validateOfState s2 := by
  unfold validateOfState
  rw [hn, he]

/-- Witness for C10: two concrete states with the same graph but different
counters validate identically. -/
theorem validate_depends_only_on_graph_witness :
    validateOfState salesOnlyState = validateOfState salesOnlyStateBumped :=
  validate_depends_only_on_graph salesOnlyState salesOnlyStateBumped rfl rfl

/-- Counterexample for C3: a parsed document whose `edges` key is absent is
not rejected — its `nodes` array replaces the current nodes while the
current edges stay, a partial overwrite that the claim rules out. -/
theorem handleImport_partial_overwrite :
    (handleImport oneEdgeState
        (some { nodes := some [mkNode "n2" .orderPage "Imported"], edges := none })).nodes ≠
      oneEdgeState.nodes ∧
    (handleImport oneEdgeState
        (some { nodes := some [mkNode "n2" .orderPage "Imported"], edges := none })).edges =
      oneEdgeState.edges := by
  constructor <;> decide

/-- C3 amended: import applies the `nodes` and `edges` keys independently —
a key present as an array replaces that collection, a missing or non-array
key leaves that collection unchanged, and a parse failure leaves the whole
state unchanged; counters are never touched by import. -/
theorem handleImport_per_key (s : EditorState) (d : ImportDoc) :
    handleImport s none = s ∧
    (handleImport s (some d)).nodes = d.nodes.getD s.nodes ∧
    (handleImport s (some d)).edges = d.edges.getD s.edges ∧
    (handleImport s (some d)).counters = s.counters := by
  obtain ⟨dn, de⟩ := d
  cases dn <;> cases de <;> simp [handleImport]

/-- Witness for C3 amended: instantiated at a concrete state and document
with only a `nodes` array. -/
theorem handleImport_per_key_witness :
    handleImport oneEdgeState none = oneEdgeState ∧
    (handleImport oneEdgeState (some { nodes := some [orderNode], edges := none })).nodes =
      (some [orderNode]).getD oneEdgeState.nodes ∧
    (handleImport oneEdgeState (some { nodes := some [orderNode], edges := none })).edges =
      (none : Option (List Edge)).getD oneEdgeState.edges ∧
    (handleImport oneEdgeState (some { nodes := some [orderNode], edges := none })).counters =
      oneEdgeState.counters :=
  handleImport_per_key oneEdgeState { nodes := some [orderNode], edges := none }

/-- C8: two `onDrop` calls of the same type observing the same `Date.now()`
millisecond generate the same id — here both nodes get id `upsell-5` — so
node ids are not pairwise distinct as the claim requires. -/
theorem duplicate_ids_same_millisecond :
    (run initialState
        [Op.add .upsell { x := 0, y := 0 } 5, Op.add .upsell { x := 0, y := 0 } 5]).nodes.map
      Node.id = ["upsell-5", "upsell-5"] ∧
    ¬ ((run initialState
        [Op.add .upsell { x := 0, y := 0 } 5, Op.add .upsell { x := 0, y := 0 } 5]).nodes.map
      Node.id).Nodup := by
  constructor <;> decide

/-- A fold that appends each element's block equals the initial list
followed by the concatenation of the blocks. -/
theorem foldl_push {α β : Type _} (g : List β → α → List β) (f : α → List β)
    (h : ∀ acc a, g acc a = acc ++ f a) (l : List α) :
    ∀ init : List β, l.foldl g init = init ++ l.flatMap f := by
  induction l with
  | nil => intro init; simp
  | cons a l ih =>
    intro init
    rw [List.foldl_cons, h, ih, List.flatMap_cons, List.append_assoc]

/-- One per-node iteration pushes exactly the node's issue block. -/
theorem perNodeCheck_push (edges : List Edge) (acc : List ValidationIssue) (n : Node) :
    perNodeCheck edges acc n = acc ++ perNodeIssues edges n := by
  simp only [perNodeCheck, perNodeIssues]
  split_ifs <;> simp

/-- One fan-out iteration pushes exactly the node's optional warning. -/
theorem fanOutCheck_push (edges : List Edge) (acc : List ValidationIssue) (sp : Node) :
    fanOutCheck edges acc sp = acc ++ (fanOutIssue edges sp).toList := by
  simp only [fanOutCheck, fanOutIssue]
  split_ifs <;> simp

/-- Concatenating the option blocks of a list is `filterMap`. -/
theorem flatMap_toList_filterMap {α β : Type _} (f : α → Option β) (l : List α) :
    (l.flatMap fun a => (f a).toList) = l.filterMap f := by
  induction l with
  | nil => rfl
  | cons a l ih => cases h : f a <;> simp [h, ih]

/-- The validation engine returns exactly the per-node issue blocks in
node-insertion order followed by the global fan-out warnings in
node-insertion order. -/
theorem validate_eq_spec (nodes : List Node) (edges : List Edge) :
    validate nodes edges = nodes.flatMap (perNodeIssues edges) ++ globalIssues nodes edges := by
  simp only [validate, globalIssues]
  rw [foldl_push (fanOutCheck edges) (fun sp => (fanOutIssue edges sp).toList)
      (fanOutCheck_push edges),
    foldl_push (perNodeCheck edges) (perNodeIssues edges) (perNodeCheck_push edges),
    flatMap_toList_filterMap]
  simp

/-- C6: the sequence validation returns is complete and ordered as all
per-node issues in node-insertion order followed by all sales-page fan-out
warnings (one per `salesPage` node with more than one outgoing edge) in
node-insertion order; no truncation occurs in the engine. -/
theorem validate_complete_and_ordered (nodes : List Node) (edges : List Edge) :
    validate nodes edges = nodes.flatMap (perNodeIssues edges) ++ globalIssues nodes edges :=
  validate_eq_spec nodes edges

/-- Every issue a node's per-node block emits carries that node's id. -/
theorem perNodeIssues_nodeId (edges : List Edge) (m : Node) :
    ∀ i ∈ perNodeIssues edges m, i.nodeId = some m.id := by
  simp only [perNodeIssues]
  split_ifs <;> intro i hi <;> simp_all

/-- A node whose id differs from `x` contributes nothing to the issues
filtered for `x`. -/
theorem filter_perNodeIssues_ne (edges : List Edge) (m : Node) (x : String)
    (h : ¬ m.id = x) :
    (perNodeIssues edges m).filter (fun i => i.nodeId == some x) = [] := by
  rw [List.filter_eq_nil_iff]
  intro i hi
  have hid := perNodeIssues_nodeId edges m i hi
  simp [hid, h]

/-- A list of nodes each with id different from `x` contributes nothing to
the issues filtered for `x`. -/
theorem filter_flatMap_ne (edges : List Edge) (x : String) :
    ∀ ms : List Node, (∀ m ∈ ms, ¬ m.id = x) →
      (ms.flatMap (perNodeIssues edges)).filter (fun i => i.nodeId == some x) = []
  | [], _ => rfl
  | m :: ms, h => by
    rw [List.flatMap_cons, List.filter_append,
      filter_perNodeIssues_ne edges m x (h m (by simp)),
      filter_flatMap_ne edges x ms (fun mm hm => h mm (by simp [hm]))]
    rfl

/-- Under pairwise-distinct node ids, filtering the per-node issues for a
member node's id keeps exactly that node's block. -/
theorem filter_flatMap_mem (edges : List Edge) (n : Node) :
    ∀ nodes : List Node, n ∈ nodes → (nodes.map Node.id).Nodup →
      (nodes.flatMap (perNodeIssues edges)).filter (fun i => i.nodeId == some n.id) =
        (perNodeIssues edges n).filter (fun i => i.nodeId == some n.id) := by
  intro nodes
  induction nodes with
  | nil => intro hmem; cases hmem
  | cons m ms ih =>
    intro hmem hids
    rw [List.map_cons, List.nodup_cons] at hids
    rw [List.flatMap_cons, List.filter_append]
    rcases List.mem_cons.mp hmem with rfl | hmem'
    · rw [filter_flatMap_ne edges n.id ms ?_, List.append_nil]
      intro mm hm heq
      exact hids.1 (heq ▸ List.mem_map_of_mem Node.id hm)
    · have hne : ¬ m.id = n.id := by
        intro heq
        exact hids.1 (heq ▸ List.mem_map_of_mem Node.id hmem')
      rw [filter_perNodeIssues_ne edges m n.id hne, List.nil_append]
      exact ih hmem' hids.2

/-- An orphaned node of a middle type contributes exactly the orphan error. -/
theorem perNodeIssues_orphan (edges : List Edge) (n : Node)
    (hty : n.data.type ≠ .salesPage ∧ n.data.type ≠ .thankYou)
    (hin : hasIncoming edges n.id = false) (hout : hasOutgoing edges n.id = false) :
    perNodeIssues edges n =
      [{ type := .error,
         message := quoted n.data.label ++ " is orphaned (no connections)",
         nodeId := some n.id }] := by
  simp [perNodeIssues, hin, hout, hty.1, hty.2]

/-- C4: a node of type `orderPage`, `upsell` or `downsell` with neither an
incoming nor an outgoing edge receives exactly one issue — the orphan
error — and no incoming/outgoing warning, in a graph with pairwise
distinct node ids. -/
theorem orphan_priority (nodes : List Node) (edges : List Edge) (n : Node)
    (hmem : n ∈ nodes) (hids : (nodes.map Node.id).Nodup)
    (hty : n.data.type = .orderPage ∨ n.data.type = .upsell ∨ n.data.type = .downsell)
    (hin : hasIncoming edges n.id = false) (hout : hasOutgoing edges n.id = false) :
    (validate nodes edges).filter (fun i => i.nodeId == some n.id) =
      [{ type := .error,
         message := quoted n.data.label ++ " is orphaned (no connections)",
         nodeId := some n.id }] := by
  have hty' : n.data.type ≠ .salesPage ∧ n.data.type ≠ .thankYou := by
    rcases hty with h | h | h <;> rw [h] <;> exact ⟨by simp, by simp⟩
  rw [validate_eq_spec, List.filter_append]
  have hglobal : (globalIssues nodes edges).filter (fun i => i.nodeId == some n.id) = [] := by
    rw [List.filter_eq_nil_iff]
    intro i hi
    simp only [globalIssues, List.mem_filterMap, List.mem_filter] at hi
    obtain ⟨sp, ⟨hspmem, hsptype⟩, hfan⟩ := hi
    have hnodeId : i.nodeId = some sp.id := by
      simp only [fanOutIssue] at hfan
      split_ifs at hfan
      · cases hfan; rfl
    rw [hnodeId]
    simp only [beq_iff_eq, Option.some.injEq]
    intro heq
    have hspn : sp = n := List.inj_on_of_nodup_map hids hspmem hmem heq
    rw [hspn] at hsptype
    exact hty'.1 (by simpa using hsptype)
  rw [hglobal, List.append_nil, filter_flatMap_mem edges n nodes hmem hids,
    perNodeIssues_orphan edges n hty' hin hout]
  simp

/-- Witness for C4: a single orphaned concrete order-page node yields
exactly the orphan error. -/
theorem orphan_priority_witness :
    (validate [orderNode] []).filter (fun i => i.nodeId == some orderNode.id) =
      [{ type := .error,
         message := quoted orderNode.data.label ++ " is orphaned (no connections)",
         nodeId := some orderNode.id }] :=
  orphan_priority [orderNode] [] orderNode (by decide) (by decide)
    (Or.inl (by decide)) (by decide) (by decide)

/-- A connect never changes the node list. -/
theorem onConnect_fst_nodes (s : EditorState) (c : Connection) :
    (onConnect s c).1.nodes = s.nodes := by
  unfold onConnect
  split
  · split_ifs <;> rfl
  · rfl

/-- A connect never changes the counters. -/
theorem onConnect_fst_counters (s : EditorState) (c : Connection) :
    (onConnect s c).1.counters = s.counters := by
  unfold onConnect
  split
  · split_ifs <;> rfl
  · rfl

/-- A drop never changes the edge list. -/
theorem onDrop_edges (s : EditorState) (t : NodeType) (p : XYPosition) (now : Nat) :
    (onDrop s t p now).edges = s.edges := by
  cases t <;> rfl

/-- A drop appends exactly one node. -/
theorem onDrop_nodes (s : EditorState) (t : NodeType) (p : XYPosition) (now : Nat) :
    ∃ nn, (onDrop s t p now).nodes = s.nodes ++ [nn] := by
  cases t <;> exact ⟨_, rfl⟩

/-- No single mutation decreases either per-type counter. -/
theorem applyOp_counters_mono (s : EditorState) (op : Op) :
    s.counters.upsell ≤ (applyOp s op).counters.upsell ∧
    s.counters.downsell ≤ (applyOp s op).counters.downsell := by
  cases op with
  | add t p now => cases t <;> simp [applyOp, onDrop]
  | delete ids => simp [applyOp, deleteNodes]
  | remEdge id => simp [applyOp, removeEdge]
  | connect c =>
    have h := onConnect_fst_counters s c
    simp [applyOp, h]

/-- No run of mutations decreases either per-type counter. -/
theorem run_counters_mono (ops : List Op) : ∀ s : EditorState,
    s.counters.upsell ≤ (run s ops).counters.upsell ∧
    s.counters.downsell ≤ (run s ops).counters.downsell := by
  induction ops with
  | nil => intro s; exact ⟨le_refl _, le_refl _⟩
  | cons op ops ih =>
    intro s
    have h1 := applyOp_counters_mono s op
    have h2 := ih (applyOp s op)
    exact ⟨le_trans h1.1 h2.1, le_trans h1.2 h2.2⟩

/-- Every upsell label number generated along a run exceeds the upsell
counter at the start of the run. -/
theorem upsellLabelNums_lt (ops : List Op) : ∀ (s : EditorState) (x : Nat),
    x ∈ upsellLabelNums s ops → s.counters.upsell < x := by
  induction ops with
  | nil => intro s x hx; cases hx
  | cons op ops ih =>
    intro s x hx
    have hmono := applyOp_counters_mono s op
    cases op with
    | add t p now =>
      cases t with
      | upsell =>
        simp only [upsellLabelNums] at hx
        rcases List.mem_cons.mp hx with rfl | hx'
        · omega
        · have h := ih _ x hx'
          have hc : (applyOp s (Op.add NodeType.upsell p now)).counters.upsell =
              s.counters.upsell + 1 := by simp [applyOp, onDrop]
          omega
      | salesPage =>
        simp only [upsellLabelNums] at hx
        exact lt_of_le_of_lt hmono.1 (ih _ x hx)
      | orderPage =>
        simp only [upsellLabelNums] at hx
        exact lt_of_le_of_lt hmono.1 (ih _ x hx)
      | downsell =>
        simp only [upsellLabelNums] at hx
        exact lt_of_le_of_lt hmono.1 (ih _ x hx)
      | thankYou =>
        simp only [upsellLabelNums] at hx
        exact lt_of_le_of_lt hmono.1 (ih _ x hx)
    | delete ids =>
      simp only [upsellLabelNums] at hx
      exact lt_of_le_of_lt hmono.1 (ih _ x hx)
    | remEdge id =>
      simp only [upsellLabelNums] at hx
      exact lt_of_le_of_lt hmono.1 (ih _ x hx)
    | connect c =>
      simp only [upsellLabelNums] at hx
      exact lt_of_le_of_lt hmono.1 (ih _ x hx)

/-- C5: along every sequence of mutations — upsell adds arbitrarily
interleaved with deletions and any other mutation — the generated upsell
label numbers are strictly increasing with no repeats, and neither
per-type counter ever decreases. -/
theorem upsell_labels_strictly_increasing (s : EditorState) (ops : List Op) :
    (upsellLabelNums s ops).Pairwise (· < ·) ∧
    s.counters.upsell ≤ (run s ops).counters.upsell ∧
    s.counters.downsell ≤ (run s ops).counters.downsell := by
  refine ⟨?_, (run_counters_mono ops s).1, (run_counters_mono ops s).2⟩
  induction ops generalizing s with
  | nil => exact List.Pairwise.nil
  | cons op ops ih =>
    cases op with
    | add t p now =>
      cases t with
      | upsell =>
        simp only [upsellLabelNums]
        refine List.Pairwise.cons ?_ (ih _)
        intro b hb
        have h := upsellLabelNums_lt ops _ b hb
        have hc : (applyOp s (Op.add NodeType.upsell p now)).counters.upsell =
            s.counters.upsell + 1 := by simp [applyOp, onDrop]
        omega
      | salesPage => simp only [upsellLabelNums]; exact ih _
      | orderPage => simp only [upsellLabelNums]; exact ih _
      | downsell => simp only [upsellLabelNums]; exact ih _
      | thankYou => simp only [upsellLabelNums]; exact ih _
    | delete ids => simp only [upsellLabelNums]; exact ih _
    | remEdge id => simp only [upsellLabelNums]; exact ih _
    | connect c => simp only [upsellLabelNums]; exact ih _

/-- A successful `addEdge` commit keeps the no-dangling invariant when the
proposed endpoints exist. -/
theorem noDangling_addEdge (s : EditorState) (c : Connection)
    (hnd : noDangling s = true)
    (hsrc : s.nodes.any (fun n => n.id == c.source) = true)
    (htgt : s.nodes.any (fun n => n.id == c.target) = true) :
    noDangling { s with edges := addEdge c s.edges } = true := by
  simp only [noDangling] at hnd ⊢
  rw [List.all_eq_true] at hnd ⊢
  intro e he
  unfold addEdge at he
  split_ifs at he
  · exact hnd e he
  · exact hnd e he
  · rw [List.mem_append] at he
    rcases he with he | he
    · exact hnd e he
    · rw [List.mem_singleton] at he
      subst he
      rw [Bool.and_eq_true]
      exact ⟨hsrc, htgt⟩

/-- C7 amended: every mutation preserves the no-dangling-edge invariant,
provided a connect references existing node ids (which the rendering
collaborator guarantees); deletion, edge removal and drop need no proviso. -/
theorem noDangling_preserved (s : EditorState) (op : Op)
    (hnd : noDangling s = true) (hok : connectOk s op = true) :
    noDangling (applyOp s op) = true := by
  cases op with
  | add t p now =>
    obtain ⟨nn, hn⟩ := onDrop_nodes s t p now
    simp only [noDangling, List.all_eq_true] at hnd ⊢
    intro e he
    rw [applyOp] at he ⊢
    rw [onDrop_edges] at he
    have h := hnd e he
    rw [Bool.and_eq_true] at h ⊢
    rw [hn, List.any_append, List.any_append]
    simp [h.1, h.2]
  | delete ids =>
    simp only [noDangling, List.all_eq_true] at hnd ⊢
    intro e he
    simp only [applyOp, deleteNodes, onNodesDelete] at he ⊢
    rw [List.mem_filter, Bool.and_eq_true] at he
    obtain ⟨he1, hkeep⟩ := he
    have h := hnd e he1
    rw [Bool.and_eq_true, List.any_eq_true, List.any_eq_true] at h
    obtain ⟨⟨ns, hns, hns2⟩, ⟨nt, hnt, hnt2⟩⟩ := h
    simp only [Bool.and_eq_true, List.any_eq_true]
    constructor
    · exact ⟨ns, List.mem_filter.mpr ⟨hns, by rw [eq_of_beq hns2]; exact hkeep.1⟩, hns2⟩
    · exact ⟨nt, List.mem_filter.mpr ⟨hnt, by rw [eq_of_beq hnt2]; exact hkeep.2⟩, hnt2⟩
  | remEdge id =>
    simp only [noDangling, List.all_eq_true] at hnd ⊢
    intro e he
    simp only [applyOp, removeEdge] at he ⊢
    rw [List.mem_filter] at he
    exact hnd e he.1
  | connect c =>
    simp only [connectOk, Bool.and_eq_true] at hok
    simp only [applyOp]
    unfold onConnect
    split
    · split_ifs
      · exact hnd
      · exact noDangling_addEdge s c hnd hok.1 hok.2
    · exact noDangling_addEdge s c hnd hok.1 hok.2

/-- Witness for C7 amended: a concrete legal connect between two existing
nodes keeps the invariant. -/
theorem noDangling_preserved_witness :
    noDangling (applyOp salesOrderState (Op.connect { source := "s1", target := "o1" })) = true :=
  noDangling_preserved salesOrderState (Op.connect { source := "s1", target := "o1" })
    (by decide) (by decide)

/-- Counterexample for C7: a connect whose source id matches no node — the
source-type check passes vacuously — inserts an edge whose source
references no existing node, so a mutation can produce a dangling edge. -/
theorem dangling_edge_from_ghost_connect :
    noDangling salesOnlyState = true ∧
    noDangling (applyOp salesOnlyState
      (Op.connect { source := "ghost", target := "s1" })) = false := by
  constructor <;> decide

end FunnelBuilder
